import Mathlib

/-!
# Verification of the carousel (slider) engine and like store

Shallow embedding of `src/components/LikeManager.ts` (the `MemoryLikeStorage`
class) and of the `Slider` class found in the same source bundle.  The slider's
DOM manipulation is modelled by the data it tracks: each cloned card records the
`originalIndex` and `position` dataset attributes that the source writes on it,
and the engine state keeps the fields that the public operations read or write
(`currentIndex`, `isMoving`, `allCards`, `cardCount`, `totalPages`, `options`).
Pixel geometry (`cardWidth`, `gap`, `itemWidth`) depends only on the measured
viewport width; no claim concerns it, so it is not carried in the state.
JavaScript numbers holding integer values are modelled as `Int` (the cursor can
go negative); `%` on non-negative operands is `Nat.mod`, and on `Int` the
JavaScript remainder is truncation-based, i.e. `Int.tmod`, while
`Math.floor(a / b)` on integers is floor division `Int.fdiv`.
-/

namespace NetflixSlider

/-- `SliderOptions` of `src/types`: configuration merged with the defaults
`{visible: 6, step: 3, infinite: true, duration: 450, easing: 'ease',
label: 'slider'}` in the `Slider` constructor. -/
structure SliderOptions where
  visible : Nat
  step : Nat
  infinite : Bool
  duration : Nat
  easing : String
  label : String
  deriving Repr, DecidableEq

/-- The defaulted options object built by the constructor when no overrides are
passed. -/
def defaultOptions : SliderOptions :=
  { visible := 6, step := 3, infinite := true, duration := 450,
    easing := "ease", label := "slider" }

/-- A materialized (cloned) card: the clone's `dataset.originalIndex` and
`dataset.position` attributes written by `_createInfiniteLoop` and
`_ensureEnoughCards`. -/
structure MCard where
  originalIndex : Nat
  position : Nat
  deriving Repr, DecidableEq

/-- The slider engine state: the fields of the `Slider` class that the public
operations and the claims read or write. -/
structure Slider where
  options : SliderOptions
  cardCount : Nat
  totalPages : Nat
  allCards : List MCard
  currentIndex : Int
  isMoving : Bool
  deriving Repr, DecidableEq

/-- `Math.ceil(a / b)` for natural `a` and positive natural `b`, as used by
`_findElements` for `totalPages = Math.ceil(cardCount / step)`. -/
def jsCeilDiv (a b : Nat) : Nat := (a + b - 1) / b

/-- `_findElements`: reads the card container's children, throws
`'No cards found'` when the list is empty, otherwise records `cardCount` and
`totalPages = Math.ceil(cardCount / step)`.  (The container itself is assumed
present; its absence is a different error not concerned by the claims.) -/
def findElements (opts : SliderOptions) (cards : List α) : Except String (Nat × Nat) :=
  let cardCount := cards.length
  if cardCount = 0 then .error "No cards found"
  else .ok (cardCount, jsCeilDiv cardCount opts.step)

/-- `_createInfiniteLoop`: when `infinite` is false the original cards are moved
into the track and `allCards` is left empty; when `infinite` is true it clones
`visible + step*10` cards, the clone at loop index `i` getting
`originalIndex = i % cardCount` and `position = i`. -/
def createInfiniteLoopCards (opts : SliderOptions) (cardCount : Nat) : List MCard :=
  if !opts.infinite then []
  else (List.range (opts.visible + opts.step * 10)).map
    (fun i => { originalIndex := i % cardCount, position := i })

/-- `_goTo(index, animate)`: returns early when a move is in flight and
animation is requested; otherwise sets `currentIndex = index`, and when
animating sets `isMoving = true`.  (The pixel translation and the synchronous
`_updateControls` call read state but change none of the modelled fields.) -/
def Slider.goToInternal (s : Slider) (index : Int) (animate : Bool) : Slider :=
  if s.isMoving && animate then s
  else { s with currentIndex := index,
                isMoving := if animate then true else s.isMoving }

/-- The quantity `this.allCards.length - this.currentIndex - this.options.visible`
computed at the top of `_ensureEnoughCards`. -/
def Slider.remaining (s : Slider) : Int :=
  (s.allCards.length : Int) - s.currentIndex - (s.options.visible : Int)

/-- `_ensureEnoughCards`: when the remaining tail is below `step * 3`, appends
`cardCount * 2` clones whose `position` continues from the current length and
whose `originalIndex` keeps the modular pattern. -/
def Slider.ensureEnoughCards (s : Slider) : Slider :=
  if s.remaining < (s.options.step : Int) * 3 then
    let currentLength := s.allCards.length
    let newCards := (List.range (s.cardCount * 2)).map
      (fun i => { originalIndex := (currentLength + i) % s.cardCount,
                  position := currentLength + i : MCard })
    { s with allCards := s.allCards ++ newCards }
  else s

/-- `_handleTransitionEnd`: clears `isMoving`; when `infinite`, runs
`_ensureEnoughCards` (then `_updateControls`, which changes no modelled field). -/
def Slider.handleTransitionEnd (s : Slider) : Slider :=
  let s1 := { s with isMoving := false }
  if s1.options.infinite then s1.ensureEnoughCards else s1

/-- `next()`: rejected while `isMoving`; otherwise `currentIndex += step` and
`_goTo(currentIndex, true)`. -/
def Slider.next (s : Slider) : Slider :=
  if s.isMoving then s
  else
    let s1 := { s with currentIndex := s.currentIndex + (s.options.step : Int) }
    s1.goToInternal s1.currentIndex true

/-- `prev()`: rejected while `isMoving`; otherwise `currentIndex -= step` and
`_goTo(currentIndex, true)`. -/
def Slider.prev (s : Slider) : Slider :=
  if s.isMoving then s
  else
    let s1 := { s with currentIndex := s.currentIndex - (s.options.step : Int) }
    s1.goToInternal s1.currentIndex true

/-- `goToPage(page)`: rejected while `isMoving`; otherwise
`currentIndex = page * step` and `_goTo(currentIndex, true)`. -/
def Slider.goToPage (s : Slider) (page : Int) : Slider :=
  if s.isMoving then s
  else
    let s1 := { s with currentIndex := page * (s.options.step : Int) }
    s1.goToInternal s1.currentIndex true

/-- One completed move: `next()` followed by the `transitionend` handler. -/
def Slider.completedNext (s : Slider) : Slider :=
  s.next.handleTransitionEnd

/-- One completed backward move: `prev()` followed by the `transitionend`
handler. -/
def Slider.completedPrev (s : Slider) : Slider :=
  s.prev.handleTransitionEnd

/-- `k` completed `next()` moves in sequence. -/
def nextIter (s : Slider) : Nat → Slider
  | 0 => s
  | k + 1 => (nextIter s k).completedNext

/-- `k` completed `prev()` moves in sequence. -/
def prevIter (s : Slider) : Nat → Slider
  | 0 => s
  | k + 1 => (prevIter s k).completedPrev

/-- The body of `_init` up to the first throw: `_findElements`, then
`_buildDOM`/`_createInfiniteLoop`/`_measure`, then `_goTo(0, false)`. -/
def initTry (opts : SliderOptions) (cards : List α) : Except String Slider :=
  match findElements opts cards with
  | .error e => .error e
  | .ok (cardCount, totalPages) =>
    let s : Slider :=
      { options := opts, cardCount := cardCount, totalPages := totalPages,
        allCards := createInfiniteLoopCards opts cardCount,
        currentIndex := 0, isMoving := false }
    .ok (s.goToInternal 0 false)

/-- The `Slider` constructor: `_init` wraps all of initialization in a
`try`/`catch` whose handler only logs, so on failure the object keeps its field
initializers (`cardCount = 0`, `allCards = []`, `currentIndex = 0`,
`isMoving = false`) and no exception propagates. -/
def sliderConstruct (opts : SliderOptions) (cards : List α) : Slider :=
  match initTry opts cards with
  | .ok s => s
  | .error _ =>
    { options := opts, cardCount := 0, totalPages := 0, allCards := [],
      currentIndex := 0, isMoving := false }

/-- Whether an exception escapes the `Slider` constructor: the `catch` block in
`_init` swallows every initialization error (it only calls `console.error`), so
the constructor always returns normally. -/
def sliderConstructRaises (opts : SliderOptions) (cards : List α) : Bool :=
  match initTry opts cards with
  | .ok _ => false
  | .error _ => false

/-- `_updatePagination`'s `logicalIndex = this.currentIndex % this.cardCount`;
the JavaScript `%` is the truncation-based remainder `Int.tmod`. -/
def Slider.logicalIndex (s : Slider) : Int :=
  s.currentIndex.tmod (s.cardCount : Int)

/-- `_updatePagination`'s
`currentPage = Math.floor(logicalIndex / this.options.step) + 1`. -/
def Slider.currentPage (s : Slider) : Int :=
  s.logicalIndex.fdiv (s.options.step : Int) + 1

/-- The text assigned to the page indicator:
a template literal of `currentPage`, `' / '` and `totalPages`. -/
def Slider.pageIndicatorText (s : Slider) : String :=
  toString s.currentPage ++ " / " ++ toString s.totalPages

/-- `_buildDots` creates `totalPages` dot buttons; `_updatePagination` marks
active exactly the dot at index `currentPage - 1`.  This is that index. -/
def Slider.activeDotIndex (s : Slider) : Int :=
  s.currentPage - 1

/-- The two `disabled` flags written by `_updateButtons`. -/
structure ButtonState where
  prevDisabled : Bool
  nextDisabled : Bool
  deriving Repr, DecidableEq

/-- `_updateButtons`: with `infinite` both buttons enabled; otherwise
`prevBtn.disabled = currentIndex <= 0` and
`nextBtn.disabled = currentIndex >= cardCount - visible`. -/
def Slider.updateButtons (s : Slider) : ButtonState :=
  if s.options.infinite then { prevDisabled := false, nextDisabled := false }
  else { prevDisabled := decide (s.currentIndex ≤ 0),
         nextDisabled := decide ((s.cardCount : Int) - (s.options.visible : Int) ≤ s.currentIndex) }

end NetflixSlider

namespace NetflixSlider

theorem next_eq (s : Slider) (h : s.isMoving = false) :
    s.next = { s with currentIndex := s.currentIndex + (s.options.step : Int),
                      isMoving := true } := by
  simp [Slider.next, Slider.goToInternal, h]

theorem prev_eq (s : Slider) (h : s.isMoving = false) :
    s.prev = { s with currentIndex := s.currentIndex - (s.options.step : Int),
                      isMoving := true } := by
  simp [Slider.prev, Slider.goToInternal, h]

theorem goToPage_eq (s : Slider) (page : Int) (h : s.isMoving = false) :
    s.goToPage page = { s with currentIndex := page * (s.options.step : Int),
                               isMoving := true } := by
  simp [Slider.goToPage, Slider.goToInternal, h]

theorem ensureEnoughCards_options (s : Slider) :
    s.ensureEnoughCards.options = s.options := by
  unfold Slider.ensureEnoughCards; split <;> rfl

theorem ensureEnoughCards_cardCount (s : Slider) :
    s.ensureEnoughCards.cardCount = s.cardCount := by
  unfold Slider.ensureEnoughCards; split <;> rfl

theorem ensureEnoughCards_totalPages (s : Slider) :
    s.ensureEnoughCards.totalPages = s.totalPages := by
  unfold Slider.ensureEnoughCards; split <;> rfl

theorem ensureEnoughCards_currentIndex (s : Slider) :
    s.ensureEnoughCards.currentIndex = s.currentIndex := by
  unfold Slider.ensureEnoughCards; split <;> rfl

theorem ensureEnoughCards_isMoving (s : Slider) :
    s.ensureEnoughCards.isMoving = s.isMoving := by
  unfold Slider.ensureEnoughCards; split <;> rfl

theorem ensureEnoughCards_remaining (s : Slider) :
    s.ensureEnoughCards.remaining =
      if s.remaining < (s.options.step : Int) * 3
      then s.remaining + 2 * (s.cardCount : Int)
      else s.remaining := by
  unfold Slider.ensureEnoughCards
  by_cases h : s.remaining < (s.options.step : Int) * 3
  · rw [if_pos h, if_pos h]
    unfold Slider.remaining
    simp only [List.length_append, List.length_map, List.length_range]
    push_cast
    ring
  · rw [if_neg h, if_neg h]

theorem handleTransitionEnd_options (s : Slider) :
    s.handleTransitionEnd.options = s.options := by
  unfold Slider.handleTransitionEnd
  cases hi : s.options.infinite <;> simp [hi, ensureEnoughCards_options]

theorem handleTransitionEnd_cardCount (s : Slider) :
    s.handleTransitionEnd.cardCount = s.cardCount := by
  unfold Slider.handleTransitionEnd
  cases hi : s.options.infinite <;> simp [hi, ensureEnoughCards_cardCount]

theorem handleTransitionEnd_currentIndex (s : Slider) :
    s.handleTransitionEnd.currentIndex = s.currentIndex := by
  unfold Slider.handleTransitionEnd
  cases hi : s.options.infinite <;> simp [hi, ensureEnoughCards_currentIndex]

theorem handleTransitionEnd_isMoving (s : Slider) :
    s.handleTransitionEnd.isMoving = false := by
  unfold Slider.handleTransitionEnd
  cases hi : s.options.infinite <;> simp [hi, ensureEnoughCards_isMoving]

theorem next_options (s : Slider) : s.next.options = s.options := by
  cases hm : s.isMoving
  · rw [next_eq s hm]
  · simp [Slider.next, hm]

theorem next_cardCount (s : Slider) : s.next.cardCount = s.cardCount := by
  cases hm : s.isMoving
  · rw [next_eq s hm]
  · simp [Slider.next, hm]

theorem prev_options (s : Slider) : s.prev.options = s.options := by
  cases hm : s.isMoving
  · rw [prev_eq s hm]
  · simp [Slider.prev, hm]

theorem prev_cardCount (s : Slider) : s.prev.cardCount = s.cardCount := by
  cases hm : s.isMoving
  · rw [prev_eq s hm]
  · simp [Slider.prev, hm]

theorem completedNext_options (s : Slider) :
    s.completedNext.options = s.options := by
  unfold Slider.completedNext
  rw [handleTransitionEnd_options, next_options]

theorem completedNext_cardCount (s : Slider) :
    s.completedNext.cardCount = s.cardCount := by
  unfold Slider.completedNext
  rw [handleTransitionEnd_cardCount, next_cardCount]

theorem completedNext_isMoving (s : Slider) :
    s.completedNext.isMoving = false := by
  unfold Slider.completedNext
  exact handleTransitionEnd_isMoving _

theorem completedNext_currentIndex (s : Slider) (h : s.isMoving = false) :
    s.completedNext.currentIndex = s.currentIndex + (s.options.step : Int) := by
  unfold Slider.completedNext
  rw [handleTransitionEnd_currentIndex, next_eq s h]

theorem completedPrev_options (s : Slider) :
    s.completedPrev.options = s.options := by
  unfold Slider.completedPrev
  rw [handleTransitionEnd_options, prev_options]

theorem completedPrev_cardCount (s : Slider) :
    s.completedPrev.cardCount = s.cardCount := by
  unfold Slider.completedPrev
  rw [handleTransitionEnd_cardCount, prev_cardCount]

theorem completedPrev_isMoving (s : Slider) :
    s.completedPrev.isMoving = false := by
  unfold Slider.completedPrev
  exact handleTransitionEnd_isMoving _

theorem completedPrev_currentIndex (s : Slider) (h : s.isMoving = false) :
    s.completedPrev.currentIndex = s.currentIndex - (s.options.step : Int) := by
  unfold Slider.completedPrev
  rw [handleTransitionEnd_currentIndex, prev_eq s h]

end NetflixSlider

namespace NetflixSlider

theorem completedNext_remaining (s : Slider) (h : s.isMoving = false)
    (hinf : s.options.infinite = true) :
    s.completedNext.remaining =
      if s.remaining - (s.options.step : Int) < (s.options.step : Int) * 3
      then s.remaining - (s.options.step : Int) + 2 * (s.cardCount : Int)
      else s.remaining - (s.options.step : Int) := by
  unfold Slider.completedNext Slider.handleTransitionEnd
  rw [next_eq s h]
  have h1 : ({ { s with currentIndex := s.currentIndex + (s.options.step : Int),
                        isMoving := true } with isMoving := false } : Slider) =
      { s with currentIndex := s.currentIndex + (s.options.step : Int),
               isMoving := false } := rfl
  have h2 : ({ s with currentIndex := s.currentIndex + (s.options.step : Int),
                      isMoving := false } : Slider).remaining =
      s.remaining - (s.options.step : Int) := by
    unfold Slider.remaining; ring
  simp only [h1, hinf, if_true]
  rw [ensureEnoughCards_remaining, h2]

theorem nextIter_options (s : Slider) (k : Nat) :
    (nextIter s k).options = s.options := by
  induction k with
  | zero => rfl
  | succ k ih => rw [nextIter, completedNext_options, ih]

theorem nextIter_cardCount (s : Slider) (k : Nat) :
    (nextIter s k).cardCount = s.cardCount := by
  induction k with
  | zero => rfl
  | succ k ih => rw [nextIter, completedNext_cardCount, ih]

theorem nextIter_isMoving (s : Slider) (h : s.isMoving = false) (k : Nat) :
    (nextIter s k).isMoving = false := by
  cases k with
  | zero => exact h
  | succ k => rw [nextIter, completedNext_isMoving]

theorem nextIter_currentIndex (s : Slider) (h : s.isMoving = false) (k : Nat) :
    (nextIter s k).currentIndex = s.currentIndex + (k : Int) * (s.options.step : Int) := by
  induction k with
  | zero => simp [nextIter]
  | succ k ih =>
    rw [nextIter, completedNext_currentIndex _ (nextIter_isMoving s h k), ih,
      nextIter_options]
    push_cast
    ring

theorem prevIter_options (s : Slider) (k : Nat) :
    (prevIter s k).options = s.options := by
  induction k with
  | zero => rfl
  | succ k ih => rw [prevIter, completedPrev_options, ih]

theorem prevIter_isMoving (s : Slider) (h : s.isMoving = false) (k : Nat) :
    (prevIter s k).isMoving = false := by
  cases k with
  | zero => exact h
  | succ k => rw [prevIter, completedPrev_isMoving]

theorem prevIter_currentIndex (s : Slider) (h : s.isMoving = false) (k : Nat) :
    (prevIter s k).currentIndex = s.currentIndex - (k : Int) * (s.options.step : Int) := by
  induction k with
  | zero => simp [prevIter]
  | succ k ih =>
    rw [prevIter, completedPrev_currentIndex _ (prevIter_isMoving s h k), ih,
      prevIter_options]
    push_cast
    ring

theorem nextIter_remaining_inv (s : Slider) (h : s.isMoving = false)
    (hinf : s.options.infinite = true)
    (hbatch : (s.options.step : Int) ≤ 2 * (s.cardCount : Int))
    (hrem : 2 * (s.options.step : Int) ≤ s.remaining) (k : Nat) :
    2 * (s.options.step : Int) ≤ (nextIter s k).remaining := by
  induction k with
  | zero => exact hrem
  | succ k ih =>
    rw [nextIter, completedNext_remaining _ (nextIter_isMoving s h k)
      (by rw [nextIter_options]; exact hinf)]
    rw [nextIter_options, nextIter_cardCount]
    split <;> omega

end NetflixSlider

namespace NetflixSlider

theorem sliderConstruct_ok (opts : SliderOptions) (cards : List α) (hne : cards ≠ []) :
    sliderConstruct opts cards =
      { options := opts, cardCount := cards.length,
        totalPages := jsCeilDiv cards.length opts.step,
        allCards := createInfiniteLoopCards opts cards.length,
        currentIndex := 0, isMoving := false } := by
  have hlen : ¬ cards.length = 0 := by simpa using hne
  unfold sliderConstruct initTry findElements
  simp [hlen, Slider.goToInternal]

theorem sliderConstruct_remaining (opts : SliderOptions) (cards : List α)
    (hne : cards ≠ []) (hinf : opts.infinite = true) :
    (sliderConstruct opts cards).remaining = 10 * (opts.step : Int) := by
  rw [sliderConstruct_ok opts cards hne]
  unfold Slider.remaining createInfiniteLoopCards
  simp [hinf]
  ring

end NetflixSlider

set_option maxRecDepth 40000

namespace NetflixSlider

/-- The configuration refuting the universal growth invariant:
one original card, one visible, step 10, infinite. -/
def cexOptions : SliderOptions :=
  { visible := 1, step := 10, infinite := true, duration := 0,
    easing := "ease", label := "slider" }

/-- C1, counterexample: with `cardCount = 1`, `visible = 1`, `step = 10`,
`infinite = true` (all allowed by the claim), after the 11th completed `next()`
move the materialized sequence holds 109 cards while `currentIndex = 110`, so
`len(sequence) - currentIndex - visible = -2 < 0`: the growth batch
`cardCount*2 = 2` cannot keep up with a step of 10. -/
theorem growth_invariant_cex :
    ¬ 0 ≤ (nextIter (sliderConstruct cexOptions [(0 : Nat)]) 11).remaining := by
  decide

/-- C1, amended: the growth invariant `len(sequence) - currentIndex - visible ≥ 0`
holds after every completed `next()` move for every configuration with
`cardCount ≥ 1`, `visible > 0`, `step > 0`, `infinite = true` in which
additionally `step ≤ 2 * cardCount`, i.e. one growth batch covers at least one
step. -/
theorem growth_invariant (opts : SliderOptions) (cards : List α) (k : Nat)
    (hne : cards ≠ []) (hinf : opts.infinite = true) (hstep : 0 < opts.step)
    (hvis : 0 < opts.visible) (hbatch : opts.step ≤ 2 * cards.length) :
    0 ≤ (nextIter (sliderConstruct opts cards) k).remaining := by
  have h0 := sliderConstruct_ok opts cards hne
  have hmov : (sliderConstruct opts cards).isMoving = false := by rw [h0]
  have hopts : (sliderConstruct opts cards).options = opts := by rw [h0]
  have hcc : (sliderConstruct opts cards).cardCount = cards.length := by rw [h0]
  have hrem := sliderConstruct_remaining opts cards hne hinf
  have hinv := nextIter_remaining_inv (sliderConstruct opts cards) hmov
    (by rw [hopts]; exact hinf)
    (by rw [hopts, hcc]; exact_mod_cast hbatch)
    (by rw [hrem, hopts]; omega) k
  rw [hopts] at hinv
  omega

/-- A concrete engine state (9 original cards, default options) used to
instantiate the general theorems. -/
def sampleSlider : Slider :=
  sliderConstruct defaultOptions [0, 1, 2, 3, 4, 5, 6, 7, 8]

/-- C1, witness: the amended invariant at a concrete admissible configuration
(9 cards, default options, 4 completed moves). -/
theorem growth_invariant_witness :
    0 ≤ (nextIter (sliderConstruct defaultOptions
        [0, 1, 2, 3, 4, 5, 6, 7, 8]) 4).remaining :=
  growth_invariant defaultOptions [0, 1, 2, 3, 4, 5, 6, 7, 8] 4
    (by decide) rfl (by decide) (by decide) (by decide)

/-- C2: starting from `currentIndex = 0` with `isMoving` cleared after each
move, `k` completed `next()` calls yield `currentIndex = k * step`, and `k`
completed `prev()` calls from there return `currentIndex` to 0. -/
theorem step_monotonicity (s : Slider) (k : Nat) (hmov : s.isMoving = false)
    (hci : s.currentIndex = 0) (hstep : 0 < s.options.step) :
    (nextIter s k).currentIndex = (k : Int) * (s.options.step : Int) ∧
    (prevIter (nextIter s k) k).currentIndex = 0 := by
  have h1 := nextIter_currentIndex s hmov k
  rw [hci, zero_add] at h1
  refine ⟨h1, ?_⟩
  rw [prevIter_currentIndex _ (nextIter_isMoving s hmov k) k, h1, nextIter_options]
  ring

/-- C2, witness: two completed `next()` then two completed `prev()` on the
sample state with step 3. -/
theorem step_monotonicity_witness :
    (nextIter sampleSlider 2).currentIndex =
      ((2 : Nat) : Int) * (sampleSlider.options.step : Int) ∧
    (prevIter (nextIter sampleSlider 2) 2).currentIndex = 0 :=
  step_monotonicity sampleSlider 2 (by decide) (by decide) (by decide)

/-- C5: while `isMoving = true`, `next()`, `prev()` and `goToPage(page)` are
no-ops: the whole state (hence `currentIndex`, `isMoving` and the materialized
sequence) is unchanged and nothing is queued. -/
theorem busy_rejection (s : Slider) (page : Int) (h : s.isMoving = true) :
    s.next = s ∧ s.prev = s ∧ s.goToPage page = s := by
  refine ⟨?_, ?_, ?_⟩ <;>
    simp [Slider.next, Slider.prev, Slider.goToPage, h]

/-- C5, witness: the three rejections on a concrete moving state. -/
theorem busy_rejection_witness :
    ({ sampleSlider with isMoving := true } : Slider).next =
      { sampleSlider with isMoving := true } ∧
    ({ sampleSlider with isMoving := true } : Slider).prev =
      { sampleSlider with isMoving := true } ∧
    ({ sampleSlider with isMoving := true } : Slider).goToPage 5 =
      { sampleSlider with isMoving := true } :=
  busy_rejection { sampleSlider with isMoving := true } 5 rfl

/-- C6: for every state, with `infinite` both directional buttons are enabled;
without `infinite` the previous button is disabled exactly when
`currentIndex ≤ 0` and the next button exactly when
`currentIndex ≥ cardCount - visible`. -/
theorem button_disabled_spec (s : Slider) :
    (s.options.infinite = true →
      s.updateButtons = { prevDisabled := false, nextDisabled := false }) ∧
    (s.options.infinite = false →
      ((s.updateButtons.prevDisabled = true ↔ s.currentIndex ≤ 0) ∧
       (s.updateButtons.nextDisabled = true ↔
         (s.cardCount : Int) - (s.options.visible : Int) ≤ s.currentIndex))) := by
  constructor
  · intro h
    simp [Slider.updateButtons, h]
  · intro h
    simp [Slider.updateButtons, h]

/-- The spec's non-infinite example configuration:
`cardCount = 10, visible = 4, step = 2, infinite = false`. -/
def nonInfOptions : SliderOptions :=
  { visible := 4, step := 2, infinite := false, duration := 450,
    easing := "ease", label := "slider" }

/-- C6, witness: at `currentIndex = 0` the previous button is disabled, at
`currentIndex = 8 ≥ 10 - 4` the next button is disabled, and on the infinite
sample state both are enabled. -/
theorem button_disabled_spec_witness :
    (sliderConstruct nonInfOptions (List.range 10)).updateButtons.prevDisabled = true ∧
    ({ sliderConstruct nonInfOptions (List.range 10) with
        currentIndex := 8 } : Slider).updateButtons.nextDisabled = true ∧
    sampleSlider.updateButtons = { prevDisabled := false, nextDisabled := false } :=
  ⟨((button_disabled_spec (sliderConstruct nonInfOptions (List.range 10))).2
      (by decide)).1.mpr (by decide),
   ((button_disabled_spec ({ sliderConstruct nonInfOptions (List.range 10) with
      currentIndex := 8 } : Slider)).2 (by decide)).2.mpr (by decide),
   (button_disabled_spec sampleSlider).1 (by decide)⟩

/-- C7: with `isMoving = false`, `goToPage(page)` sets
`currentIndex = page * step` with no range check, `prev()` sets
`currentIndex = currentIndex - step` unconditionally, and from
`currentIndex = 0` any `k ≥ 1` completed `prev()` calls drive the cursor
negative. -/
theorem no_cursor_clamping (s : Slider) (page : Int) (k : Nat)
    (hmov : s.isMoving = false) :
    (s.goToPage page).currentIndex = page * (s.options.step : Int) ∧
    s.prev.currentIndex = s.currentIndex - (s.options.step : Int) ∧
    (s.currentIndex = 0 → 0 < s.options.step → 1 ≤ k →
      (prevIter s k).currentIndex < 0) := by
  refine ⟨by rw [goToPage_eq s page hmov], by rw [prev_eq s hmov], ?_⟩
  intro hci hstep hk
  rw [prevIter_currentIndex s hmov k, hci, zero_sub, neg_lt_zero]
  have hk' : (0 : Int) < (k : Int) := by exact_mod_cast hk
  have hs' : (0 : Int) < (s.options.step : Int) := by exact_mod_cast hstep
  exact mul_pos hk' hs'

/-- C7, witness: an out-of-range absolute jump (`page = -2`), one raw `prev()`,
and one completed `prev()` from 0 on the sample state. -/
theorem no_cursor_clamping_witness :
    (sampleSlider.goToPage (-2)).currentIndex =
      (-2) * (sampleSlider.options.step : Int) ∧
    sampleSlider.prev.currentIndex =
      sampleSlider.currentIndex - (sampleSlider.options.step : Int) ∧
    (sampleSlider.currentIndex = 0 → 0 < sampleSlider.options.step → 1 ≤ 1 →
      (prevIter sampleSlider 1).currentIndex < 0) :=
  no_cursor_clamping sampleSlider (-2) 1 (by decide)

end NetflixSlider

namespace NetflixSlider

theorem toString_intCast_ofNat (n : Nat) : toString ((n : Int)) = toString n := rfl

theorem currentPage_natCast (s : Slider) (n : Nat) (hci : s.currentIndex = (n : Int)) :
    s.currentPage = ((n % s.cardCount / s.options.step + 1 : Nat) : Int) := by
  unfold Slider.currentPage Slider.logicalIndex
  rw [hci, ← Int.ofNat_tmod, ← Int.ofNat_fdiv]
  push_cast
  ring

/-- Modelled from the spec (Pagination computation): `logicalIndex =
currentIndex mod cardCount`, `currentPage = floor(logicalIndex/step) + 1`,
`totalPages = ceil(cardCount/step)`, and the label
`"{currentPage} / {totalPages}"`, written with mathematical `mod` and floor
division on naturals and the mathematical ceiling over `ℚ`; stated
independently of the engine so it can be compared with
`Slider.pageIndicatorText`. -/
def specPageLabel (currentIndex cardCount step : Nat) : String :=
  toString (currentIndex % cardCount / step + 1) ++ " / " ++
    toString (Nat.ceil ((cardCount : ℚ) / (step : ℚ)))

theorem natCeil_div_eq_jsCeilDiv (c s : Nat) (hc : 0 < c) (hs : 0 < s) :
    Nat.ceil ((c : ℚ) / (s : ℚ)) = jsCeilDiv c s := by
  have hsq : (0 : ℚ) < (s : ℚ) := by exact_mod_cast hs
  have hne : jsCeilDiv c s ≠ 0 := by
    unfold jsCeilDiv
    have h1 : 1 * s ≤ c + s - 1 := by omega
    have h2 := (Nat.le_div_iff_mul_le hs).mpr h1
    omega
  rw [Nat.ceil_eq_iff hne]
  unfold jsCeilDiv
  have h1 : (c + s - 1) / s * s ≤ c + s - 1 := Nat.div_mul_le_self _ _
  have h2 : c + s - 1 < ((c + s - 1) / s + 1) * s :=
    (Nat.div_lt_iff_lt_mul hs).mp (Nat.lt_succ_self _)
  rw [Nat.succ_mul] at h2
  constructor
  · rw [lt_div_iff₀ hsq]
    have hA : ((c + s - 1) / s - 1) * s < c := by
      rw [Nat.sub_mul, one_mul]
      omega
    exact_mod_cast hA
  · rw [div_le_iff₀ hsq]
    have hB : c ≤ (c + s - 1) / s * s := by omega
    exact_mod_cast hB

/-- The spec's pagination example state: nine original cards with the default
options (`step = 3`, so `totalPages = 3`), cursor overridden to `ci`. -/
def nineCardSlider (ci : Int) : Slider :=
  { sliderConstruct defaultOptions (List.range 9) with currentIndex := ci }

/-- C4: the page indicator label always equals the spec formula
`"{currentPage} / {totalPages}"` with `logicalIndex = currentIndex mod
cardCount`, `currentPage = floor(logicalIndex/step) + 1` and
`totalPages = ceil(cardCount/step)`; in particular with `cardCount = 9`,
`step = 3` the cursors 0, 3, 9 give `"1 / 3"`, `"2 / 3"`, `"1 / 3"`. -/
theorem pagination_spec (s : Slider) (n : Nat)
    (hc : 0 < s.cardCount) (hs : 0 < s.options.step)
    (hci : s.currentIndex = (n : Int))
    (htp : s.totalPages = jsCeilDiv s.cardCount s.options.step) :
    s.pageIndicatorText = specPageLabel n s.cardCount s.options.step ∧
    (nineCardSlider 0).pageIndicatorText = "1 / 3" ∧
    (nineCardSlider 3).pageIndicatorText = "2 / 3" ∧
    (nineCardSlider 9).pageIndicatorText = "1 / 3" := by
  refine ⟨?_, by decide, by decide, by decide⟩
  unfold Slider.pageIndicatorText specPageLabel
  rw [natCeil_div_eq_jsCeilDiv s.cardCount s.options.step hc hs, ← htp,
    currentPage_natCast s n hci, toString_intCast_ofNat]

/-- C4, witness: the general label formula instantiated at the nine-card state
with cursor 3. -/
theorem pagination_spec_witness :
    (nineCardSlider 3).pageIndicatorText =
      specPageLabel 3 (nineCardSlider 3).cardCount (nineCardSlider 3).options.step :=
  (pagination_spec (nineCardSlider 3) 3 (by decide) (by decide) (by decide)
    (by decide)).1

theorem page_le_jsCeilDiv (n c st : Nat) (hc : 0 < c) (hst : 0 < st) :
    n % c / st + 1 ≤ jsCeilDiv c st := by
  unfold jsCeilDiv
  have h1 : n % c ≤ c - 1 := by
    have := Nat.mod_lt n hc
    omega
  have h2 : n % c / st ≤ (c - 1) / st := Nat.div_le_div_right h1
  have h3 : (c - 1) / st + 1 = (c - 1 + st) / st := (Nat.add_div_right _ hst).symm
  have h4 : c - 1 + st = c + st - 1 := by omega
  calc n % c / st + 1 ≤ (c - 1) / st + 1 := by omega
    _ = (c - 1 + st) / st := h3
    _ = (c + st - 1) / st := by rw [h4]

/-- C10: with `cardCount ≥ 1`, `step ≥ 1` and a nonnegative cursor, the
computed page satisfies `1 ≤ currentPage ≤ totalPages`, so the active dot index
`currentPage - 1` addresses one of the `totalPages` dots built by
`_buildDots`. -/
theorem active_dot_in_range (s : Slider) (n : Nat)
    (hc : 0 < s.cardCount) (hs : 0 < s.options.step)
    (hci : s.currentIndex = (n : Int))
    (htp : s.totalPages = jsCeilDiv s.cardCount s.options.step) :
    1 ≤ s.currentPage ∧ s.currentPage ≤ (s.totalPages : Int) ∧
    0 ≤ s.activeDotIndex ∧ s.activeDotIndex < (s.totalPages : Int) := by
  have hpage := currentPage_natCast s n hci
  have hb := page_le_jsCeilDiv n s.cardCount s.options.step hc hs
  rw [← htp] at hb
  unfold Slider.activeDotIndex
  rw [hpage]
  constructor
  · exact_mod_cast Nat.succ_le_succ (Nat.zero_le _)
  refine ⟨by exact_mod_cast hb, ?_, ?_⟩
  · have : (1 : Int) ≤ ((n % s.cardCount / s.options.step + 1 : Nat) : Int) := by
      exact_mod_cast Nat.succ_le_succ (Nat.zero_le _)
    omega
  · have : ((n % s.cardCount / s.options.step + 1 : Nat) : Int) ≤ (s.totalPages : Int) := by
      exact_mod_cast hb
    omega

/-- C10, witness: the bounds at the nine-card state with cursor 21
(`logicalIndex = 3`, page 2 of 3). -/
theorem active_dot_in_range_witness :
    1 ≤ (nineCardSlider 21).currentPage ∧
    (nineCardSlider 21).currentPage ≤ ((nineCardSlider 21).totalPages : Int) ∧
    0 ≤ (nineCardSlider 21).activeDotIndex ∧
    (nineCardSlider 21).activeDotIndex < ((nineCardSlider 21).totalPages : Int) :=
  active_dot_in_range (nineCardSlider 21) 21 (by decide) (by decide) (by decide)
    (by decide)

end NetflixSlider

namespace NetflixSlider

/-- C8: with `infinite = true` the initial recycled sequence has exactly
`visible + step*10` entries, the entry at position `p` carrying
`originalIndex = p mod cardCount` and `position = p`; and whenever
`_ensureEnoughCards` fires (remaining tail below `step*3`) it appends exactly
`cardCount*2` entries whose positions continue sequentially from the previous
length with the same modular `originalIndex` pattern, never restarting the
numbering. -/
theorem materialization_pattern (opts : SliderOptions) (cardCount : Nat)
    (s : Slider) (hinf : opts.infinite = true)
    (htrig : s.remaining < (s.options.step : Int) * 3) :
    (createInfiniteLoopCards opts cardCount).length = opts.visible + opts.step * 10 ∧
    (∀ p (hp : p < (createInfiniteLoopCards opts cardCount).length),
      (createInfiniteLoopCards opts cardCount).get ⟨p, hp⟩ =
        { originalIndex := p % cardCount, position := p }) ∧
    s.ensureEnoughCards.allCards.length = s.allCards.length + s.cardCount * 2 ∧
    (∀ p (hp : p < s.ensureEnoughCards.allCards.length),
      s.allCards.length ≤ p →
      s.ensureEnoughCards.allCards.get ⟨p, hp⟩ =
        { originalIndex := p % s.cardCount, position := p }) := by
  refine ⟨?_, ?_, ?_, ?_⟩
  · simp [createInfiniteLoopCards, hinf]
  · intro p hp
    simp [createInfiniteLoopCards, hinf]
  · unfold Slider.ensureEnoughCards
    rw [if_pos htrig]
    simp
  · have hEq : s.ensureEnoughCards.allCards =
        s.allCards ++ (List.range (s.cardCount * 2)).map
          (fun i => { originalIndex := (s.allCards.length + i) % s.cardCount,
                      position := s.allCards.length + i : MCard }) := by
      unfold Slider.ensureEnoughCards
      rw [if_pos htrig]
    intro p hp hge
    rw [List.get_of_eq hEq]
    simp only [List.get_eq_getElem]
    rw [List.getElem_append_right hge]
    have hplen : s.allCards.length + (p - s.allCards.length) = p := by
      omega
    simp only [List.getElem_map, List.getElem_range, hplen]

/-- A concrete state in which the growth condition of `_ensureEnoughCards`
fires: two original cards, default options, remaining tail 0 < step*3. -/
def growSlider : Slider :=
  { options := defaultOptions, cardCount := 2, totalPages := 1,
    allCards := createInfiniteLoopCards defaultOptions 2,
    currentIndex := 30, isMoving := false }

/-- C8, witness: the pattern at the concrete triggered state. -/
theorem materialization_pattern_witness :
    (createInfiniteLoopCards defaultOptions 2).length =
      defaultOptions.visible + defaultOptions.step * 10 ∧
    (∀ p (hp : p < (createInfiniteLoopCards defaultOptions 2).length),
      (createInfiniteLoopCards defaultOptions 2).get ⟨p, hp⟩ =
        { originalIndex := p % 2, position := p }) ∧
    growSlider.ensureEnoughCards.allCards.length =
      growSlider.allCards.length + growSlider.cardCount * 2 ∧
    (∀ p (hp : p < growSlider.ensureEnoughCards.allCards.length),
      growSlider.allCards.length ≤ p →
      growSlider.ensureEnoughCards.allCards.get ⟨p, hp⟩ =
        { originalIndex := p % growSlider.cardCount, position := p }) :=
  materialization_pattern defaultOptions 2 growSlider rfl (by decide)

/-- C3, counterexample: constructing with an empty card list does not raise any
error to the caller — the `try`/`catch` in `_init` swallows the internal
`'No cards found'` throw and only logs it, so the constructor returns
normally. -/
theorem construction_failure_cex :
    ¬ sliderConstructRaises defaultOptions ([] : List Nat) = true := by
  decide

/-- C3 (amended): constructing with an empty card list throws `'No cards
found'` (the spec's `EmptyInputError`) inside `_init`; the constructor's own
`catch` block swallows and logs it, so no exception reaches the caller, and no
materialized sequence is produced (`allCards` stays empty, no clones
appended). -/
theorem construction_failure (opts : SliderOptions) (α : Type) :
    initTry opts ([] : List α) = .error "No cards found" ∧
    (sliderConstruct opts ([] : List α)).allCards = [] ∧
    sliderConstructRaises opts ([] : List α) = false :=
  ⟨rfl, rfl, rfl⟩

end NetflixSlider

namespace NetflixLikes

/-- The `likeCounts : Map<string, number>` of `MemoryLikeStorage`, modelled as
a partial map from content id to stored count (`none` = no entry, i.e.
`!likeCounts.has(id)`). -/
abbrev LikeCounts := String → Option Int

/-- The draw `Math.floor(Math.random() * 490) + 10` performed for `id`, with
the `Math.random()` result (a value in `[0, 1)`) supplied as `rand id`. -/
def randomCount (rand : String → ℚ) (id : String) : Int :=
  ⌊rand id * 490⌋ + 10

/-- `MemoryLikeStorage.initializeRandomCounts(contentIds)`: for each id, if no
count is stored yet, set `Math.floor(Math.random() * 490) + 10`; ids that
already hold a count are skipped. -/
def initializeRandomCounts (rand : String → ℚ) (contentIds : List String)
    (m : LikeCounts) : LikeCounts :=
  contentIds.foldl (fun acc id =>
    if (acc id).isSome then acc
    else fun x => if x = id then some (randomCount rand id) else acc x) m

theorem initializeRandomCounts_cons (rand : String → ℚ) (a : String)
    (rest : List String) (m : LikeCounts) :
    initializeRandomCounts rand (a :: rest) m =
      initializeRandomCounts rand rest
        (if (m a).isSome then m
         else fun x => if x = a then some (randomCount rand a) else m x) := by
  unfold initializeRandomCounts
  rw [List.foldl_cons]

theorem initializeRandomCounts_isSome (rand : String → ℚ)
    (contentIds : List String) (m : LikeCounts) (id : String)
    (h : (m id).isSome) :
    ((initializeRandomCounts rand contentIds m) id).isSome := by
  induction contentIds generalizing m with
  | nil => exact h
  | cons a rest ih =>
    rw [initializeRandomCounts_cons]
    apply ih
    by_cases ha : (m a).isSome
    · rw [if_pos ha]
      exact h
    · rw [if_neg ha]
      by_cases hxa : id = a
      · simp [hxa]
      · simp only [hxa, if_neg hxa]
        exact h

theorem initializeRandomCounts_keeps (rand : String → ℚ)
    (contentIds : List String) (m : LikeCounts) (id : String)
    (h : (m id).isSome) :
    (initializeRandomCounts rand contentIds m) id = m id := by
  induction contentIds generalizing m with
  | nil => rfl
  | cons a rest ih =>
    rw [initializeRandomCounts_cons]
    by_cases ha : (m a).isSome
    · rw [if_pos ha]
      exact ih m h
    · rw [if_neg ha]
      have hxa : ¬ id = a := by
        intro he
        rw [he] at h
        exact ha h
      have h2 : ((fun x => if x = a then some (randomCount rand a) else m x) id).isSome
          = true := by
        simp only [if_neg hxa]
        exact h
      rw [ih _ h2]
      simp [hxa]

theorem initializeRandomCounts_mem_isSome (rand : String → ℚ)
    (contentIds : List String) (m : LikeCounts) (id : String)
    (h : id ∈ contentIds) :
    ((initializeRandomCounts rand contentIds m) id).isSome := by
  induction contentIds generalizing m with
  | nil => cases h
  | cons a rest ih =>
    rw [initializeRandomCounts_cons]
    rcases List.mem_cons.mp h with he | hr
    · subst he
      by_cases ha : (m id).isSome
      · rw [if_pos ha]
        exact initializeRandomCounts_isSome rand rest m id ha
      · rw [if_neg ha]
        apply initializeRandomCounts_isSome
        simp
    · by_cases ha : (m a).isSome
      · rw [if_pos ha]
        exact ih m hr
      · rw [if_neg ha]
        exact ih _ hr

theorem initializeRandomCounts_value (rand : String → ℚ)
    (contentIds : List String) (m : LikeCounts) (id : String) :
    (initializeRandomCounts rand contentIds m) id = m id ∨
    (initializeRandomCounts rand contentIds m) id = some (randomCount rand id) := by
  induction contentIds generalizing m with
  | nil => exact Or.inl rfl
  | cons a rest ih =>
    rw [initializeRandomCounts_cons]
    by_cases ha : (m a).isSome
    · rw [if_pos ha]
      exact ih m
    · rw [if_neg ha]
      rcases ih (fun x => if x = a then some (randomCount rand a) else m x) with h | h
      · by_cases hxa : id = a
        · subst hxa
          rw [h]
          simp
        · rw [h]
          simp [hxa]
      · exact Or.inr h

/-- C9: for every id not yet holding a count and every random draw
`r ∈ [0, 1)`, `initializeRandomCounts` assigns it an initial like count
between 10 and 500 inclusive (in fact at most 499); ids already holding a
count are left unchanged. -/
theorem like_count_init_range (rand : String → ℚ) (contentIds : List String)
    (m : LikeCounts) (id : String)
    (hr0 : 0 ≤ rand id) (hr1 : rand id < 1) :
    (m id = none → id ∈ contentIds →
      (initializeRandomCounts rand contentIds m) id = some (randomCount rand id) ∧
      10 ≤ randomCount rand id ∧ randomCount rand id ≤ 500) ∧
    (∀ c, m id = some c → (initializeRandomCounts rand contentIds m) id = some c) := by
  have hlo : (0 : Int) ≤ ⌊rand id * 490⌋ := by
    apply Int.le_floor.mpr
    push_cast
    positivity
  have hhi : ⌊rand id * 490⌋ < 490 := by
    apply Int.floor_lt.mpr
    push_cast
    nlinarith
  constructor
  · intro hnone hmem
    refine ⟨?_, ?_, ?_⟩
    · rcases initializeRandomCounts_value rand contentIds m id with h | h
      · exfalso
        have := initializeRandomCounts_mem_isSome rand contentIds m id hmem
        rw [h, hnone] at this
        cases this
      · exact h
    · unfold randomCount
      omega
    · unfold randomCount
      omega
  · intro c hc
    rw [initializeRandomCounts_keeps rand contentIds m id (by rw [hc]; rfl), hc]

/-- C9, witness: a fresh id `"movie1"` with draw 1/2 receives count 255; an id
`"movie0"` already holding 7 keeps it. -/
theorem like_count_init_range_witness :
    ((fun _ => none : LikeCounts) "movie1" = none → "movie1" ∈ ["movie0", "movie1"] →
      (initializeRandomCounts (fun _ => 1/2) ["movie0", "movie1"]
        (fun _ => none)) "movie1" = some (randomCount (fun _ => 1/2) "movie1") ∧
      10 ≤ randomCount (fun _ => 1/2) "movie1" ∧
      randomCount (fun _ => 1/2) "movie1" ≤ 500) ∧
    (∀ c, (fun _ => none : LikeCounts) "movie1" = some c →
      (initializeRandomCounts (fun _ => 1/2) ["movie0", "movie1"]
        (fun _ => none)) "movie1" = some c) :=
  like_count_init_range (fun _ => 1/2) ["movie0", "movie1"] (fun _ => none)
    "movie1" (by norm_num) (by norm_num)

end NetflixLikes
